import Mathlib

set_option maxRecDepth 16384

/-
Shallow embedding of `process_json_string` from `scripts/gen_prompt/tools.py`
and of the parts of Python's standard library it relies on (`str.strip`,
`str.replace`, `re.sub` for the four fixed patterns, and `json.loads`),
together with proofs about the claims of the specification.

Strings are modelled as Lean `String` (a wrapper around `List Char`); the
per-character work is done on `List Char`.  Machine-level concerns do not
arise: all Python values involved are immutable strings, lists and dicts.
-/

/-! ## Python string primitives -/

/-- The set of characters stripped by Python `str.strip()` (the Unicode
whitespace table used by `str.isspace`).  The same table models `\s` of the
`re` module, whose whitespace category coincides with it. -/
def pyIsSpace (c : Char) : Bool :=
  let n := c.toNat
  (9 ≤ n && n ≤ 13) || n == 32 || (28 ≤ n && n ≤ 31) || n == 0x85 || n == 0xa0 ||
    n == 0x1680 || (0x2000 ≤ n && n ≤ 0x200a) || n == 0x2028 || n == 0x2029 ||
    n == 0x202f || n == 0x205f || n == 0x3000

/-- Left part of Python `str.strip()`. -/
def lstripL (l : List Char) : List Char := l.dropWhile pyIsSpace

/-- Right part of Python `str.strip()`. -/
def rstripL (l : List Char) : List Char := (l.reverse.dropWhile pyIsSpace).reverse

/-- Python `str.strip()` on a character list. -/
def stripL (l : List Char) : List Char := rstripL (lstripL l)

/-- Python `str.strip()`. -/
def pyStrip (s : String) : String := ⟨stripL s.data⟩

/-- Python `s.startswith('"') and s.endswith('"')` (tools.py line 23).  On a
one-character string `"` both tests look at the same character and succeed. -/
def startsEndsQuoteL (l : List Char) : Bool :=
  match l.head?, l.getLast? with
  | some a, some b => a == '"' && b == '"'
  | _, _ => false

/-- Python `s[1:-1]` (tools.py line 24). -/
def dropQuotesL (l : List Char) : List Char := (l.drop 1).dropLast

/-- Step 1 of `process_json_string` (tools.py lines 21-26): strip, remove one
enclosing double-quote pair if present, strip again. -/
def normalizeL (l : List Char) : List Char :=
  let c1 := stripL l
  let c2 := if startsEndsQuoteL c1 then dropQuotesL c1 else c1
  stripL c2

/-- The TextNormalizer stage on strings. -/
def normalizeText (s : String) : String := ⟨normalizeL s.data⟩

/-- Does `pat` occur at the head of `l`. -/
def leadsWith : List Char → List Char → Bool
  | [], _ => true
  | _ :: _, [] => false
  | p :: ps, c :: cs => p == c && leadsWith ps cs

/-- Python `str.replace`: leftmost non-overlapping occurrences of `pat` are
replaced by `rep`, and replacements are not rescanned.  The fuel argument is
only a termination device; a fuel of the list length is always enough because
every step consumes at least one character (all patterns used are nonempty). -/
def replaceAux (pat rep : List Char) : Nat → List Char → List Char
  | 0, l => l
  | _ + 1, [] => []
  | f + 1, c :: rest =>
    if leadsWith pat (c :: rest) then rep ++ replaceAux pat rep f ((c :: rest).drop pat.length)
    else c :: replaceAux pat rep f rest

/-- Python `s.replace(pat, rep)`. -/
def pyReplace (s pat rep : String) : String := ⟨replaceAux pat.data rep.data s.data.length s.data⟩

/-- The Unicode decimal-digit ranges (category Nd) that `\d` of the `re`
module matches in a str pattern, obtained by enumerating CPython's matcher
over every code point; each range is a run of ten digits whose decimal value
is its offset from the range start. -/
def ndTable : List (Nat × Nat) :=
  [ (48, 57), (1632, 1641), (1776, 1785), (1984, 1993), (2406, 2415), (2534, 2543), (2662, 2671),
   (2790, 2799), (2918, 2927), (3046, 3055), (3174, 3183), (3302, 3311), (3430, 3439),
   (3558, 3567), (3664, 3673), (3792, 3801), (3872, 3881), (4160, 4169), (4240, 4249),
   (6112, 6121), (6160, 6169), (6470, 6479), (6608, 6617), (6784, 6793), (6800, 6809),
   (6992, 7001), (7088, 7097), (7232, 7241), (7248, 7257), (42528, 42537), (43216, 43225),
   (43264, 43273), (43472, 43481), (43504, 43513), (43600, 43609), (44016, 44025), (65296, 65305),
   (66720, 66729), (68912, 68921), (69734, 69743), (69872, 69881), (69942, 69951), (70096, 70105),
   (70384, 70393), (70736, 70745), (70864, 70873), (71248, 71257), (71360, 71369), (71472, 71481),
   (71904, 71913), (72016, 72025), (72784, 72793), (73040, 73049), (73120, 73129), (92768, 92777),
   (92864, 92873), (93008, 93017), (120782, 120831), (123200, 123209), (123632, 123641),
   (125264, 125273), (130032, 130041)]
/-- Model of `\d` in the two `re.sub` patterns of tools.py: every Unicode
decimal digit. -/
def pyIsDigit (c : Char) : Bool := ndTable.any (fun r => r.1 ≤ c.toNat && c.toNat ≤ r.2)

/-- `re.sub(r'\\(\d)', r'\\n\1', s)` (tools.py line 36): every backslash that
is immediately followed by a digit becomes backslash-n and the digit is kept;
scanning continues after the digit (matches do not overlap). -/
def subBackslashDigitAux : Nat → List Char → List Char
  | 0, l => l
  | _ + 1, [] => []
  | f + 1, c :: rest =>
    if c == '\\' then
      match rest with
      | d :: rest2 =>
        if pyIsDigit d then '\\' :: 'n' :: d :: subBackslashDigitAux f rest2
        else '\\' :: subBackslashDigitAux f rest
      | [] => ['\\']
    else c :: subBackslashDigitAux f rest

/-- The backslash-digit repair on strings. -/
def subBackslashDigit (s : String) : String := ⟨subBackslashDigitAux s.data.length s.data⟩

/-- Step 2 of `process_json_string` (tools.py lines 32-39): the EscapeRepairer.
The replacements are applied in source order: doubly escaped newline and tab,
the backslash-digit regex, then the eight full-width punctuation characters. -/
def escapeRepair (s : String) : String :=
  let f1 := pyReplace s "\\\\n" "\\n"
  let f2 := pyReplace f1 "\\\\t" "\\t"
  let f3 := subBackslashDigit f2
  let f4 := pyReplace f3 "：" ":"
  let f5 := pyReplace f4 "，" ","
  let f6 := pyReplace f5 "”" "\""
  let f7 := pyReplace f6 "“" "\""
  let f8 := pyReplace f7 "；" ";"
  let f9 := pyReplace f8 "。" "."
  let f10 := pyReplace f9 "（" "("
  let f11 := pyReplace f10 "）" ")"
  f11

/-- `re.sub(r',\s*}', '}', s)` and `re.sub(r',\s*]', ']', s)` (tools.py lines
43-44), parametrised by the closing character.  A comma matches when the next
non-whitespace character is the closer; the whole match is replaced by the
closer and scanning continues after it. -/
def subCommaCloseAux (close : Char) : Nat → List Char → List Char
  | 0, l => l
  | _ + 1, [] => []
  | f + 1, c :: rest =>
    if c == ',' then
      match rest.dropWhile pyIsSpace with
      | d :: rest2 =>
        if d == close then close :: subCommaCloseAux close f rest2
        else c :: subCommaCloseAux close f rest
      | [] => c :: subCommaCloseAux close f rest
    else c :: subCommaCloseAux close f rest

/-- The trailing-comma repair on strings. -/
def subCommaClose (close : Char) (s : String) : String :=
  ⟨subCommaCloseAux close s.data.length s.data⟩

/-- The Unicode ranges that `\w` of the `re` module matches in a str pattern
(alphanumerics, the underscore and the other Unicode word characters),
obtained by enumerating CPython's matcher over every code point.  Surrogate
code points, which a Lean `Char` cannot hold, lie outside every range;
Python's `\w` rejects them too. -/
def wordTable : List (Nat × Nat) :=
  [ (48, 57), (65, 90), (95, 95), (97, 122), (170, 170), (178, 179), (181, 181), (185, 186),
   (188, 190), (192, 214), (216, 246), (248, 705), (710, 721), (736, 740), (748, 748), (750, 750),
   (880, 884), (886, 887), (890, 893), (895, 895), (902, 902), (904, 906), (908, 908), (910, 929),
   (931, 1013), (1015, 1153), (1162, 1327), (1329, 1366), (1369, 1369), (1376, 1416),
   (1488, 1514), (1519, 1522), (1568, 1610), (1632, 1641), (1646, 1647), (1649, 1747),
   (1749, 1749), (1765, 1766), (1774, 1788), (1791, 1791), (1808, 1808), (1810, 1839),
   (1869, 1957), (1969, 1969), (1984, 2026), (2036, 2037), (2042, 2042), (2048, 2069),
   (2074, 2074), (2084, 2084), (2088, 2088), (2112, 2136), (2144, 2154), (2160, 2183),
   (2185, 2190), (2208, 2249), (2308, 2361), (2365, 2365), (2384, 2384), (2392, 2401),
   (2406, 2415), (2417, 2432), (2437, 2444), (2447, 2448), (2451, 2472), (2474, 2480),
   (2482, 2482), (2486, 2489), (2493, 2493), (2510, 2510), (2524, 2525), (2527, 2529),
   (2534, 2545), (2548, 2553), (2556, 2556), (2565, 2570), (2575, 2576), (2579, 2600),
   (2602, 2608), (2610, 2611), (2613, 2614), (2616, 2617), (2649, 2652), (2654, 2654),
   (2662, 2671), (2674, 2676), (2693, 2701), (2703, 2705), (2707, 2728), (2730, 2736),
   (2738, 2739), (2741, 2745), (2749, 2749), (2768, 2768), (2784, 2785), (2790, 2799),
   (2809, 2809), (2821, 2828), (2831, 2832), (2835, 2856), (2858, 2864), (2866, 2867),
   (2869, 2873), (2877, 2877), (2908, 2909), (2911, 2913), (2918, 2927), (2929, 2935),
   (2947, 2947), (2949, 2954), (2958, 2960), (2962, 2965), (2969, 2970), (2972, 2972),
   (2974, 2975), (2979, 2980), (2984, 2986), (2990, 3001), (3024, 3024), (3046, 3058),
   (3077, 3084), (3086, 3088), (3090, 3112), (3114, 3129), (3133, 3133), (3160, 3162),
   (3165, 3165), (3168, 3169), (3174, 3183), (3192, 3198), (3200, 3200), (3205, 3212),
   (3214, 3216), (3218, 3240), (3242, 3251), (3253, 3257), (3261, 3261), (3293, 3294),
   (3296, 3297), (3302, 3311), (3313, 3314), (3332, 3340), (3342, 3344), (3346, 3386),
   (3389, 3389), (3406, 3406), (3412, 3414), (3416, 3425), (3430, 3448), (3450, 3455),
   (3461, 3478), (3482, 3505), (3507, 3515), (3517, 3517), (3520, 3526), (3558, 3567),
   (3585, 3632), (3634, 3635), (3648, 3654), (3664, 3673), (3713, 3714), (3716, 3716),
   (3718, 3722), (3724, 3747), (3749, 3749), (3751, 3760), (3762, 3763), (3773, 3773),
   (3776, 3780), (3782, 3782), (3792, 3801), (3804, 3807), (3840, 3840), (3872, 3891),
   (3904, 3911), (3913, 3948), (3976, 3980), (4096, 4138), (4159, 4169), (4176, 4181),
   (4186, 4189), (4193, 4193), (4197, 4198), (4206, 4208), (4213, 4225), (4238, 4238),
   (4240, 4249), (4256, 4293), (4295, 4295), (4301, 4301), (4304, 4346), (4348, 4680),
   (4682, 4685), (4688, 4694), (4696, 4696), (4698, 4701), (4704, 4744), (4746, 4749),
   (4752, 4784), (4786, 4789), (4792, 4798), (4800, 4800), (4802, 4805), (4808, 4822),
   (4824, 4880), (4882, 4885), (4888, 4954), (4969, 4988), (4992, 5007), (5024, 5109),
   (5112, 5117), (5121, 5740), (5743, 5759), (5761, 5786), (5792, 5866), (5870, 5880),
   (5888, 5905), (5919, 5937), (5952, 5969), (5984, 5996), (5998, 6000), (6016, 6067),
   (6103, 6103), (6108, 6108), (6112, 6121), (6128, 6137), (6160, 6169), (6176, 6264),
   (6272, 6276), (6279, 6312), (6314, 6314), (6320, 6389), (6400, 6430), (6470, 6509),
   (6512, 6516), (6528, 6571), (6576, 6601), (6608, 6618), (6656, 6678), (6688, 6740),
   (6784, 6793), (6800, 6809), (6823, 6823), (6917, 6963), (6981, 6988), (6992, 7001),
   (7043, 7072), (7086, 7141), (7168, 7203), (7232, 7241), (7245, 7293), (7296, 7304),
   (7312, 7354), (7357, 7359), (7401, 7404), (7406, 7411), (7413, 7414), (7418, 7418),
   (7424, 7615), (7680, 7957), (7960, 7965), (7968, 8005), (8008, 8013), (8016, 8023),
   (8025, 8025), (8027, 8027), (8029, 8029), (8031, 8061), (8064, 8116), (8118, 8124),
   (8126, 8126), (8130, 8132), (8134, 8140), (8144, 8147), (8150, 8155), (8160, 8172),
   (8178, 8180), (8182, 8188), (8304, 8305), (8308, 8313), (8319, 8329), (8336, 8348),
   (8450, 8450), (8455, 8455), (8458, 8467), (8469, 8469), (8473, 8477), (8484, 8484),
   (8486, 8486), (8488, 8488), (8490, 8493), (8495, 8505), (8508, 8511), (8517, 8521),
   (8526, 8526), (8528, 8585), (9312, 9371), (9450, 9471), (10102, 10131), (11264, 11492),
   (11499, 11502), (11506, 11507), (11517, 11517), (11520, 11557), (11559, 11559), (11565, 11565),
   (11568, 11623), (11631, 11631), (11648, 11670), (11680, 11686), (11688, 11694), (11696, 11702),
   (11704, 11710), (11712, 11718), (11720, 11726), (11728, 11734), (11736, 11742), (11823, 11823),
   (12293, 12295), (12321, 12329), (12337, 12341), (12344, 12348), (12353, 12438), (12445, 12447),
   (12449, 12538), (12540, 12543), (12549, 12591), (12593, 12686), (12690, 12693), (12704, 12735),
   (12784, 12799), (12832, 12841), (12872, 12879), (12881, 12895), (12928, 12937), (12977, 12991),
   (13312, 19903), (19968, 42124), (42192, 42237), (42240, 42508), (42512, 42539), (42560, 42606),
   (42623, 42653), (42656, 42735), (42775, 42783), (42786, 42888), (42891, 42954), (42960, 42961),
   (42963, 42963), (42965, 42969), (42994, 43009), (43011, 43013), (43015, 43018), (43020, 43042),
   (43056, 43061), (43072, 43123), (43138, 43187), (43216, 43225), (43250, 43255), (43259, 43259),
   (43261, 43262), (43264, 43301), (43312, 43334), (43360, 43388), (43396, 43442), (43471, 43481),
   (43488, 43492), (43494, 43518), (43520, 43560), (43584, 43586), (43588, 43595), (43600, 43609),
   (43616, 43638), (43642, 43642), (43646, 43695), (43697, 43697), (43701, 43702), (43705, 43709),
   (43712, 43712), (43714, 43714), (43739, 43741), (43744, 43754), (43762, 43764), (43777, 43782),
   (43785, 43790), (43793, 43798), (43808, 43814), (43816, 43822), (43824, 43866), (43868, 43881),
   (43888, 44002), (44016, 44025), (44032, 55203), (55216, 55238), (55243, 55291), (63744, 64109),
   (64112, 64217), (64256, 64262), (64275, 64279), (64285, 64285), (64287, 64296), (64298, 64310),
   (64312, 64316), (64318, 64318), (64320, 64321), (64323, 64324), (64326, 64433), (64467, 64829),
   (64848, 64911), (64914, 64967), (65008, 65019), (65136, 65140), (65142, 65276), (65296, 65305),
   (65313, 65338), (65345, 65370), (65382, 65470), (65474, 65479), (65482, 65487), (65490, 65495),
   (65498, 65500), (65536, 65547), (65549, 65574), (65576, 65594), (65596, 65597), (65599, 65613),
   (65616, 65629), (65664, 65786), (65799, 65843), (65856, 65912), (65930, 65931), (66176, 66204),
   (66208, 66256), (66273, 66299), (66304, 66339), (66349, 66378), (66384, 66421), (66432, 66461),
   (66464, 66499), (66504, 66511), (66513, 66517), (66560, 66717), (66720, 66729), (66736, 66771),
   (66776, 66811), (66816, 66855), (66864, 66915), (66928, 66938), (66940, 66954), (66956, 66962),
   (66964, 66965), (66967, 66977), (66979, 66993), (66995, 67001), (67003, 67004), (67072, 67382),
   (67392, 67413), (67424, 67431), (67456, 67461), (67463, 67504), (67506, 67514), (67584, 67589),
   (67592, 67592), (67594, 67637), (67639, 67640), (67644, 67644), (67647, 67669), (67672, 67702),
   (67705, 67742), (67751, 67759), (67808, 67826), (67828, 67829), (67835, 67867), (67872, 67897),
   (67968, 68023), (68028, 68047), (68050, 68096), (68112, 68115), (68117, 68119), (68121, 68149),
   (68160, 68168), (68192, 68222), (68224, 68255), (68288, 68295), (68297, 68324), (68331, 68335),
   (68352, 68405), (68416, 68437), (68440, 68466), (68472, 68497), (68521, 68527), (68608, 68680),
   (68736, 68786), (68800, 68850), (68858, 68899), (68912, 68921), (69216, 69246), (69248, 69289),
   (69296, 69297), (69376, 69415), (69424, 69445), (69457, 69460), (69488, 69505), (69552, 69579),
   (69600, 69622), (69635, 69687), (69714, 69743), (69745, 69746), (69749, 69749), (69763, 69807),
   (69840, 69864), (69872, 69881), (69891, 69926), (69942, 69951), (69956, 69956), (69959, 69959),
   (69968, 70002), (70006, 70006), (70019, 70066), (70081, 70084), (70096, 70106), (70108, 70108),
   (70113, 70132), (70144, 70161), (70163, 70187), (70272, 70278), (70280, 70280), (70282, 70285),
   (70287, 70301), (70303, 70312), (70320, 70366), (70384, 70393), (70405, 70412), (70415, 70416),
   (70419, 70440), (70442, 70448), (70450, 70451), (70453, 70457), (70461, 70461), (70480, 70480),
   (70493, 70497), (70656, 70708), (70727, 70730), (70736, 70745), (70751, 70753), (70784, 70831),
   (70852, 70853), (70855, 70855), (70864, 70873), (71040, 71086), (71128, 71131), (71168, 71215),
   (71236, 71236), (71248, 71257), (71296, 71338), (71352, 71352), (71360, 71369), (71424, 71450),
   (71472, 71483), (71488, 71494), (71680, 71723), (71840, 71922), (71935, 71942), (71945, 71945),
   (71948, 71955), (71957, 71958), (71960, 71983), (71999, 71999), (72001, 72001), (72016, 72025),
   (72096, 72103), (72106, 72144), (72161, 72161), (72163, 72163), (72192, 72192), (72203, 72242),
   (72250, 72250), (72272, 72272), (72284, 72329), (72349, 72349), (72368, 72440), (72704, 72712),
   (72714, 72750), (72768, 72768), (72784, 72812), (72818, 72847), (72960, 72966), (72968, 72969),
   (72971, 73008), (73030, 73030), (73040, 73049), (73056, 73061), (73063, 73064), (73066, 73097),
   (73112, 73112), (73120, 73129), (73440, 73458), (73648, 73648), (73664, 73684), (73728, 74649),
   (74752, 74862), (74880, 75075), (77712, 77808), (77824, 78894), (82944, 83526), (92160, 92728),
   (92736, 92766), (92768, 92777), (92784, 92862), (92864, 92873), (92880, 92909), (92928, 92975),
   (92992, 92995), (93008, 93017), (93019, 93025), (93027, 93047), (93053, 93071), (93760, 93846),
   (93952, 94026), (94032, 94032), (94099, 94111), (94176, 94177), (94179, 94179),
   (94208, 100343), (100352, 101589), (101632, 101640), (110576, 110579), (110581, 110587),
   (110589, 110590), (110592, 110882), (110928, 110930), (110948, 110951), (110960, 111355),
   (113664, 113770), (113776, 113788), (113792, 113800), (113808, 113817), (119520, 119539),
   (119648, 119672), (119808, 119892), (119894, 119964), (119966, 119967), (119970, 119970),
   (119973, 119974), (119977, 119980), (119982, 119993), (119995, 119995), (119997, 120003),
   (120005, 120069), (120071, 120074), (120077, 120084), (120086, 120092), (120094, 120121),
   (120123, 120126), (120128, 120132), (120134, 120134), (120138, 120144), (120146, 120485),
   (120488, 120512), (120514, 120538), (120540, 120570), (120572, 120596), (120598, 120628),
   (120630, 120654), (120656, 120686), (120688, 120712), (120714, 120744), (120746, 120770),
   (120772, 120779), (120782, 120831), (122624, 122654), (123136, 123180), (123191, 123197),
   (123200, 123209), (123214, 123214), (123536, 123565), (123584, 123627), (123632, 123641),
   (124896, 124902), (124904, 124907), (124909, 124910), (124912, 124926), (124928, 125124),
   (125127, 125135), (125184, 125251), (125259, 125259), (125264, 125273), (126065, 126123),
   (126125, 126127), (126129, 126132), (126209, 126253), (126255, 126269), (126464, 126467),
   (126469, 126495), (126497, 126498), (126500, 126500), (126503, 126503), (126505, 126514),
   (126516, 126519), (126521, 126521), (126523, 126523), (126530, 126530), (126535, 126535),
   (126537, 126537), (126539, 126539), (126541, 126543), (126545, 126546), (126548, 126548),
   (126551, 126551), (126553, 126553), (126555, 126555), (126557, 126557), (126559, 126559),
   (126561, 126562), (126564, 126564), (126567, 126570), (126572, 126578), (126580, 126583),
   (126585, 126588), (126590, 126590), (126592, 126601), (126603, 126619), (126625, 126627),
   (126629, 126633), (126635, 126651), (127232, 127244), (130032, 130041), (131072, 173791),
   (173824, 177976), (177984, 178205), (178208, 183969), (183984, 191456), (194560, 195101),
   (196608, 201546)]

/-- Model of `\w` in the key-quoting regex: every Unicode word character. -/
def pyIsWordChar (c : Char) : Bool := wordTable.any (fun r => r.1 ≤ c.toNat && c.toNat ≤ r.2)

/-- Attempt to match `\s*\w+\s*:` (the part of the key-quoting pattern after
the opening brace or comma).  The character classes are disjoint, so greedy
matching without backtracking is exact. -/
def matchKeyAfter (rest : List Char) : Option (List Char × List Char × List Char × List Char) :=
  let ws1 := rest.takeWhile pyIsSpace
  let r1 := rest.dropWhile pyIsSpace
  let word := r1.takeWhile pyIsWordChar
  let r2 := r1.dropWhile pyIsWordChar
  if word.isEmpty then none
  else
    let ws2 := r2.takeWhile pyIsSpace
    let r3 := r2.dropWhile pyIsSpace
    match r3 with
    | c :: r4 => if c == ':' then some (ws1, word, ws2, r4) else none
    | [] => none

/-- `re.sub(r'([{,]\s*)(\w+)(\s*:)', r'\1"\2"\3', s)` (tools.py line 46):
a bare word between an opening brace or comma and a colon is wrapped in
double quotes; the surrounding whitespace is kept. -/
def subQuoteKeysAux : Nat → List Char → List Char
  | 0, l => l
  | _ + 1, [] => []
  | f + 1, c :: rest =>
    if c == '\x7b' || c == ',' then
      match matchKeyAfter rest with
      | some (ws1, word, ws2, r4) =>
        (c :: ws1) ++ ('"' :: word) ++ ('"' :: ws2) ++ (':' :: subQuoteKeysAux f r4)
      | none => c :: subQuoteKeysAux f rest
    else c :: subQuoteKeysAux f rest

/-- The key-quoting repair on strings. -/
def subQuoteKeys (s : String) : String := ⟨subQuoteKeysAux s.data.length s.data⟩

/-- `re.sub(r"(?<!\\)'", '"', s)` (tools.py line 48): every single quote not
preceded by a backslash in the original text becomes a double quote. -/
def subSingleQuoteAux : Nat → Option Char → List Char → List Char
  | 0, _, l => l
  | _ + 1, _, [] => []
  | f + 1, prev, c :: rest =>
    (if c == '\x27' && prev != some '\\' then '"' else c) :: subSingleQuoteAux f (some c) rest

/-- The single-quote repair on strings. -/
def subSingleQuote (s : String) : String := ⟨subSingleQuoteAux s.data.length none s.data⟩

/-- Step 3 of `process_json_string` (tools.py lines 41-48): the
StructuralRepairer, in source order. -/
def structuralRepair (s : String) : String :=
  let g1 := subCommaClose '\x7d' s
  let g2 := subCommaClose ']' g1
  let g3 := subQuoteKeys g2
  subSingleQuote g3

/-! ## The JSON value model and Python's `json.loads` -/

/-- The values `json.loads` can produce.  Integer-syntax numbers become Python
ints and are modelled exactly; numbers with a fraction or exponent, and the
constants NaN and Infinity, become Python floats and are kept as their source
lexeme (no claim compares float values).  Objects are association lists in
insertion order, as Python dicts are. -/
inductive Jv where
  | jnull
  | jbool (b : Bool)
  | jnum (n : Int)
  | jfloat (lit : String)
  | jstr (s : String)
  | jarr (elems : List Jv)
  | jobj (entries : List (String × Jv))

/-- A `json.JSONDecodeError` before formatting: its message and the absolute
character offset; line and column are derived from the offset and the document
by `lineOf` and `colOf` below, exactly as the Python constructor derives them. -/
structure JErr where
  msg : String
  pos : Nat
deriving DecidableEq

/-- JSON whitespace (the only characters `json.loads` skips between tokens). -/
def jsonWs (c : Char) : Bool := c == ' ' || c == '\t' || c == '\n' || c == '\r'

/-- Skip JSON whitespace, tracking the absolute position. -/
def skipWsL : List Char → Nat → List Char × Nat
  | [], p => ([], p)
  | c :: rest, p => if jsonWs c then skipWsL rest (p + 1) else (c :: rest, p)

/-- Value of a hexadecimal digit. -/
def hexVal (c : Char) : Option Nat :=
  let n := c.toNat
  if 48 ≤ n && n ≤ 57 then some (n - 48)
  else if 97 ≤ n && n ≤ 102 then some (n - 87)
  else if 65 ≤ n && n ≤ 70 then some (n - 55)
  else none

/-- Four hexadecimal digits, as in `\uXXXX`.  Python's decoder calls
`int(esc, 16)`, which additionally tolerates a sign or underscores; those
degenerate inputs are not modelled (no claim exercises them). -/
def hex4 (a b c d : Char) : Option Nat :=
  match hexVal a, hexVal b, hexVal c, hexVal d with
  | some x, some y, some z, some w => some (((x * 16 + y) * 16 + z) * 16 + w)
  | _, _, _, _ => none

/-- The simple escape table of `json.decoder` (BACKSLASH): the quote, the
backslash and the solidus stand for themselves, and b, f, n, r, t stand for
the usual control characters. -/
def escChar (e : Char) : Option Char :=
  match e with
  | 'n' => some '\n'
  | 't' => some '\t'
  | 'r' => some '\x0d'
  | 'b' => some '\x08'
  | 'f' => some '\x0c'
  | '"' => some '"'
  | '\\' => some '\\'
  | '/' => some '/'
  | _ => none

/-- The string scanner of `json.loads`: decode a JSON string body.
`beginPos` is the index of the opening quote (used by the unterminated-string
error), the input starts right after that quote and `p` is its index.
Returns the decoded characters, the rest of the input and the position after
the closing quote.  Error offsets follow the default C scanner: an invalid
escape is reported at the backslash, a control character at its own index,
a bad `\uXXXX` at the index of the `u`.  A lone surrogate, which Python
keeps as a surrogate code unit, is not representable in a Lean `Char`;
`Char.ofNat` maps it to NUL (no claim exercises lone surrogates).  Fuel is a
termination device; the list length plus one is always enough. -/
def parseStringAux (beginPos : Nat) : Nat → List Char → Nat →
    Except JErr (List Char × List Char × Nat)
  | 0, _, _ => .error ⟨"Unterminated string starting at", beginPos⟩
  | _ + 1, [], _ => .error ⟨"Unterminated string starting at", beginPos⟩
  | f + 1, c :: rest, p =>
    if c == '"' then .ok ([], rest, p + 1)
    else if c == '\\' then
      match rest with
      | [] => .error ⟨"Unterminated string starting at", beginPos⟩
      | e :: rest2 =>
        if e == 'u' then
          match rest2 with
          | h1 :: h2 :: h3 :: h4 :: rest3 =>
            match hex4 h1 h2 h3 h4 with
            | none => .error ⟨"Invalid \\uXXXX escape", p + 1⟩
            | some uni =>
              if 0xd800 ≤ uni && uni ≤ 0xdbff then
                match rest3 with
                | '\\' :: 'u' :: g1 :: g2 :: g3 :: g4 :: rest4 =>
                  match hex4 g1 g2 g3 g4 with
                  | some uni2 =>
                    if 0xdc00 ≤ uni2 && uni2 ≤ 0xdfff then do
                      let (cs, r, q) ← parseStringAux beginPos f rest4 (p + 12)
                      .ok (Char.ofNat (0x10000 + (uni - 0xd800) * 1024 + (uni2 - 0xdc00)) :: cs,
                        r, q)
                    else do
                      let (cs, r, q) ← parseStringAux beginPos f rest3 (p + 6)
                      .ok (Char.ofNat uni :: cs, r, q)
                  | none => do
                    let (cs, r, q) ← parseStringAux beginPos f rest3 (p + 6)
                    .ok (Char.ofNat uni :: cs, r, q)
                | _ => do
                  let (cs, r, q) ← parseStringAux beginPos f rest3 (p + 6)
                  .ok (Char.ofNat uni :: cs, r, q)
              else do
                let (cs, r, q) ← parseStringAux beginPos f rest3 (p + 6)
                .ok (Char.ofNat uni :: cs, r, q)
          | _ => .error ⟨"Invalid \\uXXXX escape", p + 1⟩
        else
          match escChar e with
          | some ch => do
            let (cs, r, q) ← parseStringAux beginPos f rest2 (p + 2)
            .ok (ch :: cs, r, q)
          | none => .error ⟨"Invalid \\escape", p⟩
    else if c.toNat < 0x20 then .error ⟨"Invalid control character at", p⟩
    else do
      let (cs, r, q) ← parseStringAux beginPos f rest (p + 1)
      .ok (c :: cs, r, q)

/-- Numeric value of a list of ASCII digits. -/
def digitsVal (l : List Char) : Nat := l.foldl (fun a c => a * 10 + (c.toNat - 48)) 0

/-- The number grammar `(-?(?:0|[1-9][0-9]*))(\.[0-9]+)?([eE][-+]?[0-9]+)?`
matched at the current position, as the default C scanner of `json.loads`
lexes it (ASCII digits only, unlike the pure-Python scanner's Unicode
`NUMBER_RE`).  Returns `none` when it does not match (the scanner then tries
the constants and finally reports "Expecting value").  An integer-syntax
match becomes a Python int, any other match a float kept as its lexeme. -/
def parseNumber (cs : List Char) (p : Nat) : Option (Jv × List Char × Nat) :=
  let (negSign, cs1) := match cs with
    | '-' :: r => (true, r)
    | _ => (false, cs)
  match cs1 with
  | [] => none
  | c :: r =>
    if c == '0' || Char.isDigit c then
      let intPart := if c == '0' then ['0'] else c :: r.takeWhile Char.isDigit
      let restInt := if c == '0' then r else r.dropWhile Char.isDigit
      let (fracPart, restFrac) :=
        match restInt with
        | '.' :: r2 =>
          let ds := r2.takeWhile Char.isDigit
          if ds.isEmpty then (([] : List Char), restInt)
          else ('.' :: ds, r2.dropWhile Char.isDigit)
        | _ => ([], restInt)
      let (expPart, restExp) :=
        match restFrac with
        | e :: r3 =>
          if e == 'e' || e == 'E' then
            let (sgn, r4) := match r3 with
              | s :: r5 => if s == '+' || s == '-' then ([s], r5) else (([] : List Char), r3)
              | [] => ([], r3)
            let ds := r4.takeWhile Char.isDigit
            if ds.isEmpty then (([] : List Char), restFrac)
            else (e :: (sgn ++ ds), r4.dropWhile Char.isDigit)
          else ([], restFrac)
        | [] => ([], restFrac)
      let lex := (if negSign then ['-'] else []) ++ intPart ++ fracPart ++ expPart
      if fracPart.isEmpty && expPart.isEmpty then
        let v : Int := Int.ofNat (digitsVal intPart)
        some (.jnum (if negSign then -v else v), restExp, p + lex.length)
      else some (.jfloat ⟨lex⟩, restExp, p + lex.length)
    else none

/-- Python dict assignment `d[k] = v` folded over parsed pairs: an existing
key keeps its position and gets the new value, a new key is appended. -/
def insertPair : List (String × Jv) → String → Jv → List (String × Jv)
  | [], k, v => [(k, v)]
  | (k0, v0) :: rest, k, v =>
    if k0 == k then (k0, v) :: rest else (k0, v0) :: insertPair rest k v

mutual

/-- `scan_once` of `json.scanner` at one position: dispatch on the first
character exactly as the scanner does (string, object, array, the three
keywords, the number regex, then NaN and the Infinities). -/
def parseValue : Nat → List Char → Nat → Except JErr (Jv × List Char × Nat)
  | 0, _, p => .error ⟨"maximum recursion depth exceeded", p⟩
  | f + 1, cs, p =>
    match cs with
    | [] => .error ⟨"Expecting value", p⟩
    | '"' :: rest => do
      let (chars, r, q) ← parseStringAux p (rest.length + 1) rest (p + 1)
      .ok (.jstr ⟨chars⟩, r, q)
    | '\x7b' :: rest =>
      let (cs1, p1) := skipWsL rest (p + 1)
      (match cs1 with
       | '\x7d' :: r => .ok (.jobj [], r, p1 + 1)
       | '"' :: r => parseMembers f [] r (p1 + 1)
       | _ => .error ⟨"Expecting property name enclosed in double quotes", p1⟩)
    | '[' :: rest =>
      let (cs1, p1) := skipWsL rest (p + 1)
      (match cs1 with
       | ']' :: r => .ok (.jarr [], r, p1 + 1)
       | _ => parseElems f [] cs1 p1)
    | _ =>
      if leadsWith ("null".data) cs then .ok (.jnull, cs.drop 4, p + 4)
      else if leadsWith ("true".data) cs then .ok (.jbool true, cs.drop 4, p + 4)
      else if leadsWith ("false".data) cs then .ok (.jbool false, cs.drop 5, p + 5)
      else
        match parseNumber cs p with
        | some (v, r, q) => .ok (v, r, q)
        | none =>
          if leadsWith ("NaN".data) cs then .ok (.jfloat "NaN", cs.drop 3, p + 3)
          else if leadsWith ("Infinity".data) cs then .ok (.jfloat "Infinity", cs.drop 8, p + 8)
          else if leadsWith ("-Infinity".data) cs then .ok (.jfloat "-Infinity", cs.drop 9, p + 9)
          else .error ⟨"Expecting value", p⟩

/-- The member loop of `JSONObject`: the input starts right after the opening
quote of a key, whose index is `p - 1`.  After each pair: `}` closes, `,` must
be followed (after whitespace) by the quote of the next key. -/
def parseMembers : Nat → List (String × Jv) → List Char → Nat →
    Except JErr (Jv × List Char × Nat)
  | 0, _, _, p => .error ⟨"maximum recursion depth exceeded", p⟩
  | f + 1, acc, cs, p => do
    let (kcs, r1, p1) ← parseStringAux (p - 1) (cs.length + 1) cs p
    let (r2, p2) := skipWsL r1 p1
    match r2 with
    | ':' :: r3 =>
      let (r4, p4) := skipWsL r3 (p2 + 1)
      do
        let (v, r5, p5) ← parseValue f r4 p4
        let acc2 := insertPair acc ⟨kcs⟩ v
        let (r6, p6) := skipWsL r5 p5
        match r6 with
        | '\x7d' :: r7 => .ok (.jobj acc2, r7, p6 + 1)
        | ',' :: r7 =>
          let (r8, p8) := skipWsL r7 (p6 + 1)
          (match r8 with
           | '"' :: r9 => parseMembers f acc2 r9 (p8 + 1)
           | _ => .error ⟨"Expecting property name enclosed in double quotes", p8⟩)
        | _ => .error ⟨"Expecting \x27,\x27 delimiter", p6⟩
    | _ => .error ⟨"Expecting \x27:\x27 delimiter", p2⟩

/-- The element loop of `JSONArray`: the input starts at an element.  After
each element: `]` closes, `,` continues with the next element (so `[1,]`
fails inside `parseValue` with "Expecting value", as in Python). -/
def parseElems : Nat → List Jv → List Char → Nat → Except JErr (Jv × List Char × Nat)
  | 0, _, _, p => .error ⟨"maximum recursion depth exceeded", p⟩
  | f + 1, acc, cs, p => do
    let (v, r1, p1) ← parseValue f cs p
    let (r2, p2) := skipWsL r1 p1
    match r2 with
    | ']' :: r3 => .ok (.jarr (acc ++ [v]), r3, p2 + 1)
    | ',' :: r3 =>
      let (r4, p4) := skipWsL r3 (p2 + 1)
      parseElems f (acc ++ [v]) r4 p4
    | _ => .error ⟨"Expecting \x27,\x27 delimiter", p2⟩

end

/-- `json.loads`: skip leading whitespace, scan one value, skip trailing
whitespace, and refuse any remaining text as "Extra data". -/
def pyJsonLoads (s : String) : Except JErr Jv :=
  let cs := s.data
  let (cs1, p1) := skipWsL cs 0
  match parseValue (cs.length + 1) cs1 p1 with
  | .error e => .error e
  | .ok (v, r, p2) =>
    let (r3, p3) := skipWsL r p2
    match r3 with
    | [] => .ok v
    | _ => .error ⟨"Extra data", p3⟩

/-! ## Schema validation and the full pipeline -/

/-- The failure modes of `process_json_string`, as the spec names them.
`jsonDecode` models the `json.JSONDecodeError` raised at tools.py lines 55-61:
it carries the inner error's line, column and absolute offset (the re-raised
exception recomputes line and column from the same document and offset, so
they coincide), the inner message, and the first 500 characters of the
repaired string embedded in the formatted message.  `typeError` and
`attributeError` model the Python exceptions that escape the validator when
the decoded value does not support `in` or `.get`; they carry the Python type
name of the offending value. -/
inductive ProcessError where
  | emptyInput
  | jsonDecode (lineno colno pos : Nat) (msg preview : String)
  | missingField (fields : List String)
  | missingRubic (fields : List String)
  | typeError (ty : String)
  | attributeError (ty : String)
deriving DecidableEq

/-- Substring test, as Python `in` on strings. -/
def isSubstrL : List Char → List Char → Bool
  | pat, [] => pat.isEmpty
  | pat, l@(_ :: rest) => leadsWith pat l || isSubstrL pat rest

/-- Python `==` between a string and a decoded JSON value: only an equal
string compares equal (no JSON value of another type equals a `str`). -/
def eqStrVal (needle : String) : Jv → Bool
  | .jstr t => t == needle
  | _ => false

/-- The Python type name of a decoded JSON value. -/
def pyTypeName : Jv → String
  | .jnull => "NoneType"
  | .jbool _ => "bool"
  | .jnum _ => "int"
  | .jfloat _ => "float"
  | .jstr _ => "str"
  | .jarr _ => "list"
  | .jobj _ => "dict"

/-- Values supporting the Python `in` operator among decoded JSON values:
dicts (key test), lists (element test) and strings (substring test). -/
def isContainer : Jv → Bool
  | .jobj _ => true
  | .jarr _ => true
  | .jstr _ => true
  | _ => false

/-- Membership content of Python `f in v` for container values. -/
def memB (f : String) : Jv → Bool
  | .jobj kvs => kvs.any (fun kv => kv.1 == f)
  | .jarr xs => xs.any (eqStrVal f)
  | .jstr t => isSubstrL f.data t.data
  | _ => false

/-- Python `f in v` on a decoded JSON value: containers answer, every other
value raises `TypeError: argument of type ... is not iterable`. -/
def pyInB (f : String) (v : Jv) : Except ProcessError Bool :=
  if isContainer v then .ok (memB f v) else .error (.typeError (pyTypeName v))

/-- The list comprehension `[f for f in fields if f not in v]` (tools.py
lines 65 and 72): memberships are evaluated left to right and the first
`TypeError` propagates. -/
def collectAbsent : List String → Jv → Except ProcessError (List String)
  | [], _ => .ok []
  | f :: fs, v => do
    let b ← pyInB f v
    let rest ← collectAbsent fs v
    .ok (if b then rest else f :: rest)

/-- First value bound to `key`, as dict lookup (a parsed dict never holds a
key twice). -/
def lookupKey : List (String × Jv) → String → Option Jv
  | [], _ => none
  | (k, v) :: rest, key => if k == key then some v else lookupKey rest key

/-- Python `v.get(key, dflt)`: dicts look up, every other decoded JSON value
has no `get` attribute and raises `AttributeError`. -/
def pyDictGet (key : String) (dflt : Jv) : Jv → Except ProcessError Jv
  | .jobj kvs => .ok ((lookupKey kvs key).getD dflt)
  | v => .error (.attributeError (pyTypeName v))

/-- `required_fields` of tools.py line 64, in source order. -/
def requiredFields : List String := ["generation_prompt", "evaluation_rubic", "manual"]

/-- `rubic_fields` of tools.py line 70, in source order. -/
def rubicFields : List String := ["pc_rubic", "cmp_rubic", "slr_rubic", "clr_rubic", "ri_rubic"]

/-- Step 5 of `process_json_string` (tools.py lines 64-76): collect the absent
top-level keys and fail with all of them; then fetch `evaluation_rubic` (with
an empty-dict default), collect its absent sub-keys and fail with all of
them; otherwise return the decoded value unchanged. -/
def validateSchema (json_data : Jv) : Except ProcessError Jv := do
  let missing_fields ← collectAbsent requiredFields json_data
  if missing_fields.isEmpty then do
    let rubic_data ← pyDictGet "evaluation_rubic" (.jobj []) json_data
    let missing_rubic ← collectAbsent rubicFields rubic_data
    if missing_rubic.isEmpty then .ok json_data
    else .error (.missingRubic missing_rubic)
  else .error (.missingField missing_fields)

/-- `doc.count of newline in doc[0:pos] + 1`: the `lineno` a
`json.JSONDecodeError` derives from its document and offset. -/
def lineOf (doc : String) (pos : Nat) : Nat :=
  ((doc.data.take pos).filter (fun c => c == '\n')).length + 1

/-- Index of the first newline. -/
def idxOfNl : List Char → Nat
  | [] => 0
  | c :: rest => if c == '\n' then 0 else idxOfNl rest + 1

/-- `pos - doc.rfind of newline in doc[0:pos]`: the `colno` a
`json.JSONDecodeError` derives from its document and offset (`rfind` answers
-1 when there is no newline, making the column `pos + 1`). -/
def colOf (doc : String) (pos : Nat) : Nat :=
  let pre := doc.data.take pos
  if pre.contains '\n' then pos - (pre.length - 1 - idxOfNl pre.reverse) else pos + 1

/-- Steps 4 and 5 of `process_json_string` (tools.py lines 50-76): parse the
repaired string; a decode failure is re-raised carrying the inner error's
line, column and offset (the re-raised `json.JSONDecodeError` recomputes line
and column from the same document and offset, so they coincide), the inner
message, and the first 500 characters of the repaired string that the
formatted message embeds; a successful parse goes to the validator. -/
def parseAndValidate (fix_str : String) : Except ProcessError Jv :=
  match pyJsonLoads fix_str with
  | .error e =>
    .error (.jsonDecode (lineOf fix_str e.pos) (colOf fix_str e.pos) e.pos e.msg
      ⟨fix_str.data.take 500⟩)
  | .ok json_data => validateSchema json_data

/-- `process_json_string` of tools.py lines 5-76: normalize, repair escapes,
repair structure, parse, validate.  An empty normalized string fails first
(line 28); the validated dict is returned unchanged (line 76). -/
def process_json_string (raw_json_str : String) : Except ProcessError Jv :=
  let cleaned_str := normalizeText raw_json_str
  if cleaned_str.data.isEmpty then .error .emptyInput
  else parseAndValidate (structuralRepair (escapeRepair cleaned_str))

/-- The repaired text the parser receives, as a function of the raw input. -/
def repairedOf (s : String) : String := structuralRepair (escapeRepair (normalizeText s))

/-- Is `key` bound to a string value. -/
def isStrAt (kvs : List (String × Jv)) (key : String) : Bool :=
  match lookupKey kvs key with
  | some (.jstr _) => true
  | _ => false

/-- Modelled from the spec: the `evaluation_rubic` part of the RubricSchema
shape of section 3 — a mapping whose five rubric keys are each bound to text. -/
def rubricValueOk : Option Jv → Bool
  | some (.jobj r) => rubicFields.all (fun f => isStrAt r f)
  | _ => false

/-- Modelled from the spec: the RubricSchema shape of section 3 (the code
itself never checks types, only membership).  A mapping with
`generation_prompt` and `manual` bound to text and `evaluation_rubic` bound
to a mapping whose five rubric keys are each bound to text. -/
def rubricSchemaOk : Jv → Bool
  | .jobj kvs =>
    isStrAt kvs "generation_prompt" && isStrAt kvs "manual" &&
      rubricValueOk (lookupKey kvs "evaluation_rubic")
  | _ => false

/-! ## Lemmas about stripping and normalization -/

theorem dropWhile_dropWhile_self (p : Char → Bool) (l : List Char) :
    (l.dropWhile p).dropWhile p = l.dropWhile p := by
  induction l with
  | nil => rfl
  | cons a t ih =>
    by_cases h : p a = true
    · simp [List.dropWhile_cons, h, ih]
    · simp [List.dropWhile_cons, h]

theorem head_dropWhile_false (p : Char → Bool) (l : List Char) (c : Char) (rest : List Char)
    (h : l.dropWhile p = c :: rest) : p c = false := by
  induction l with
  | nil => simp at h
  | cons a t ih =>
    by_cases ha : p a = true
    · rw [List.dropWhile_cons, if_pos ha] at h
      exact ih h
    · rw [List.dropWhile_cons, if_neg ha] at h
      cases h
      simpa using ha

theorem dropWhile_append_single (p : Char → Bool) (xs : List Char) (a : Char) :
    (xs ++ [a]).dropWhile p =
      if (xs.dropWhile p).isEmpty then [a].dropWhile p else xs.dropWhile p ++ [a] := by
  induction xs with
  | nil => simp
  | cons b t ih =>
    by_cases h : p b = true
    · simpa [List.dropWhile_cons, h] using ih
    · simp [List.dropWhile_cons, h]

theorem rstripL_head (l : List Char) : rstripL l = [] ∨ (rstripL l).head? = l.head? := by
  cases l with
  | nil => exact Or.inl rfl
  | cons a t =>
    unfold rstripL
    rw [show (a :: t).reverse = t.reverse ++ [a] by simp, dropWhile_append_single]
    by_cases h : (t.reverse.dropWhile pyIsSpace).isEmpty = true
    · rw [if_pos h]
      by_cases ha : pyIsSpace a = true
      · exact Or.inl (by simp [List.dropWhile_cons, ha])
      · exact Or.inr (by simp [List.dropWhile_cons, ha])
    · rw [if_neg h]
      exact Or.inr (by simp)

theorem lstripL_lstripL (l : List Char) : lstripL (lstripL l) = lstripL l :=
  dropWhile_dropWhile_self pyIsSpace l

theorem rstripL_rstripL (l : List Char) : rstripL (rstripL l) = rstripL l := by
  unfold rstripL
  rw [List.reverse_reverse, dropWhile_dropWhile_self]

theorem lstripL_rstripL_lstripL (l : List Char) :
    lstripL (rstripL (lstripL l)) = rstripL (lstripL l) := by
  rcases rstripL_head (lstripL l) with h | h
  · rw [h]; rfl
  · cases hu : rstripL (lstripL l) with
    | nil => rfl
    | cons c r =>
      rw [hu] at h
      cases hm : lstripL l with
      | nil => rw [hm] at h; simp at h
      | cons d m =>
        rw [hm] at h
        have hcd : c = d := by simpa using h
        have hdf : pyIsSpace d = false := head_dropWhile_false pyIsSpace l d m hm
        simp [lstripL, List.dropWhile_cons, hcd, hdf]

theorem stripL_idem (l : List Char) : stripL (stripL l) = stripL l := by
  unfold stripL
  rw [lstripL_rstripL_lstripL, rstripL_rstripL]

theorem normalizeL_def (l : List Char) :
    normalizeL l =
      stripL (if startsEndsQuoteL (stripL l) then dropQuotesL (stripL l) else stripL l) := rfl

theorem stripL_normalizeL (l : List Char) : stripL (normalizeL l) = normalizeL l := by
  rw [normalizeL_def]
  exact stripL_idem _

theorem normalizeL_idem (l : List Char) (h : startsEndsQuoteL (normalizeL l) = false) :
    normalizeL (normalizeL l) = normalizeL l := by
  rw [normalizeL_def (normalizeL l), stripL_normalizeL, h, if_neg (by simp)]
  exact stripL_normalizeL l

theorem process_of_normalize_nil (s : String) (h : normalizeText s = "") :
    process_json_string s = .error .emptyInput := by
  unfold process_json_string
  rw [h]
  rfl

/-! ## The claims -/

/-- C5: an input that is empty (or whitespace-only, hence empty) after the
normalization stage makes `process_json_string` fail with the empty-input
error before any repair, parsing or validation is performed. -/
theorem empty_input_error (s : String) (h : normalizeText s = "") :
    process_json_string s = .error .emptyInput :=
  process_of_normalize_nil s h

/-- Witness for C5 at the whitespace-only input. -/
theorem empty_input_error_witness :
    normalizeText "  " = "" ∧ process_json_string "  " = .error .emptyInput :=
  ⟨by decide, empty_input_error "  " (by decide)⟩

/-- C6: the TextNormalizer applied twice agrees with one application whenever
its output does not itself begin and end with a double quote. -/
theorem normalizer_second_pass_noop (s : String)
    (h : startsEndsQuoteL (normalizeText s).data = false) :
    normalizeText (normalizeText s) = normalizeText s :=
  congrArg String.mk (normalizeL_idem s.data h)

/-- Witness for C6 at a padded input. -/
theorem normalizer_second_pass_noop_witness :
    startsEndsQuoteL (normalizeText "  x  ").data = false ∧
      normalizeText (normalizeText "  x  ") = normalizeText "  x  " :=
  ⟨by decide, normalizer_second_pass_noop "  x  " (by decide)⟩

/-- C9: an input that strips to the single character `"` is treated as an
enclosing quote pair around nothing, normalizes to the empty string, and so
fails with the empty-input error rather than a decode error. -/
theorem lone_quote_empty_input (s : String) (h : pyStrip s = "\"") :
    normalizeText s = "" ∧ process_json_string s = .error .emptyInput := by
  have hd : stripL s.data = ['"'] := congrArg String.data h
  have hn : normalizeText s = "" := by
    show (⟨normalizeL s.data⟩ : String) = ""
    rw [normalizeL_def, hd]
    rfl
  exact ⟨hn, process_of_normalize_nil s hn⟩

/-- Witness for C9 at a padded lone quote. -/
theorem lone_quote_empty_input_witness :
    normalizeText " \" " = "" ∧ process_json_string " \" " = .error .emptyInput :=
  lone_quote_empty_input " \" " (by decide)

/-! ## Lemmas about the repair substitutions -/

theorem replace_id_of_head_notMem (c : Char) (ps rep : List Char) :
    ∀ (f : Nat) (l : List Char), ¬ c ∈ l → replaceAux (c :: ps) rep f l = l := by
  intro f
  induction f with
  | zero => intro l _; rfl
  | succ f ih =>
    intro l hl
    cases l with
    | nil => rfl
    | cons a rest =>
      have hca : (c == a) = false := by
        simp only [beq_eq_false_iff_ne, ne_eq]
        intro hc
        exact hl (hc ▸ List.mem_cons_self c rest)
      have hlw : leadsWith (c :: ps) (a :: rest) = false := by
        simp [leadsWith, hca]
      rw [replaceAux, if_neg (by simp [hlw])]
      rw [ih rest (fun hm => hl (List.mem_cons_of_mem a hm))]

theorem replace_singleton_map (a b : Char) :
    ∀ (f : Nat) (l : List Char), l.length ≤ f →
      replaceAux [a] [b] f l = l.map (fun c => if c == a then b else c) := by
  intro f
  induction f with
  | zero =>
    intro l hl
    rw [Nat.le_zero, List.length_eq_zero] at hl
    subst hl
    rfl
  | succ f ih =>
    intro l hl
    cases l with
    | nil => rfl
    | cons x rest =>
      simp only [List.length_cons, Nat.succ_le_succ_iff] at hl
      by_cases hx : x = a
      · subst hx
        rw [replaceAux, if_pos (by simp [leadsWith])]
        rw [show ((x :: rest).drop ([x].length) : List Char) = rest from rfl]
        rw [ih rest hl]
        simp
      · have hca : (a == x) = false := by
          simp only [beq_eq_false_iff_ne, ne_eq]
          exact fun hc => hx hc.symm
        rw [replaceAux, if_neg (by simp [leadsWith, hca])]
        rw [ih rest hl]
        simp [hx]

theorem subBackslashDigitAux_id :
    ∀ (f : Nat) (l : List Char), ¬ '\\' ∈ l → subBackslashDigitAux f l = l := by
  intro f
  induction f with
  | zero => intro l _; rfl
  | succ f ih =>
    intro l hl
    cases l with
    | nil => rfl
    | cons c rest =>
      have hc : (c == '\\') = false := by
        simp only [beq_eq_false_iff_ne, ne_eq]
        intro hc
        exact hl (hc ▸ List.mem_cons_self c rest)
      have step : subBackslashDigitAux (f + 1) (c :: rest) = c :: subBackslashDigitAux f rest := by
        rw [subBackslashDigitAux.eq_def]
        simp [hc]
      rw [step, ih rest (fun hm => hl (List.mem_cons_of_mem c hm))]

theorem notMem_map_subst (c a b : Char) (l : List Char) (hc : ¬ c ∈ l) (hb : ¬ c = b) :
    ¬ c ∈ l.map (fun x => if x == a then b else x) := by
  intro hmem
  rcases List.mem_map.1 hmem with ⟨x, hx, hfx⟩
  by_cases hxa : x = a
  · rw [if_pos (by simp [hxa])] at hfx
    exact hb hfx.symm
  · rw [if_neg (by simp [hxa])] at hfx
    exact hc (hfx ▸ hx)

theorem pyReplace_id (s pat rep : String) (c : Char) (ps : List Char)
    (hp : pat.data = c :: ps) (h : ¬ c ∈ s.data) : pyReplace s pat rep = s := by
  show (⟨replaceAux pat.data rep.data s.data.length s.data⟩ : String) = s
  rw [hp, replace_id_of_head_notMem c ps rep.data s.data.length s.data h]

theorem pyReplace_map (s pat rep : String) (a b : Char)
    (hp : pat.data = [a]) (hr : rep.data = [b]) :
    pyReplace s pat rep = ⟨s.data.map (fun c => if c == a then b else c)⟩ := by
  show (⟨replaceAux pat.data rep.data s.data.length s.data⟩ : String) = _
  rw [hp, hr, replace_singleton_map a b s.data.length s.data (Nat.le_refl _)]

theorem subBackslashDigit_id (s : String) (h : ¬ '\\' ∈ s.data) : subBackslashDigit s = s := by
  show (⟨subBackslashDigitAux s.data.length s.data⟩ : String) = s
  rw [subBackslashDigitAux_id s.data.length s.data h]

/-- ASCII form of a full-width colon or comma; every other character is kept. -/
def fwHalf (c : Char) : Char := if c == '：' then ':' else if c == '，' then ',' else c

/-- C8: on an input whose only repair-relevant content is full-width colons
and commas (no backslash, none of the other six full-width characters of the
table), the EscapeRepairer replaces exactly those characters by `:` and `,`
and leaves every other character unchanged at its position (the result is a
character-wise map of the input). -/
theorem fullwidth_punct_replaced (s : String)
    (h1 : ¬ '\\' ∈ s.data) (h2 : ¬ '”' ∈ s.data) (h3 : ¬ '“' ∈ s.data)
    (h4 : ¬ '；' ∈ s.data) (h5 : ¬ '。' ∈ s.data) (h6 : ¬ '（' ∈ s.data)
    (h7 : ¬ '）' ∈ s.data) :
    escapeRepair s = ⟨s.data.map fwHalf⟩ := by
  have e1 : pyReplace s "\\\\n" "\\n" = s := pyReplace_id s _ _ '\\' ['\\', 'n'] rfl h1
  have e2 : pyReplace s "\\\\t" "\\t" = s := pyReplace_id s _ _ '\\' ['\\', 't'] rfl h1
  have e3 : subBackslashDigit s = s := subBackslashDigit_id s h1
  have e4 : pyReplace s "：" ":" =
      ⟨s.data.map (fun c => if c == '：' then ':' else c)⟩ :=
    pyReplace_map s _ _ '：' ':' rfl rfl
  have e5 : pyReplace (⟨s.data.map (fun c => if c == '：' then ':' else c)⟩ : String) "，" "," =
      ⟨(s.data.map (fun c => if c == '：' then ':' else c)).map
        (fun c => if c == '，' then ',' else c)⟩ :=
    pyReplace_map _ _ _ '，' ',' rfl rfl
  have hmem : ∀ c : Char, ¬ c ∈ s.data → ¬ c = ':' → ¬ c = ',' →
      ¬ c ∈ (s.data.map (fun c => if c == '：' then ':' else c)).map
        (fun c => if c == '，' then ',' else c) := by
    intro c hc hc1 hc2
    exact notMem_map_subst c '，' ',' _ (notMem_map_subst c '：' ':' _ hc hc1) hc2
  have e6 := pyReplace_id _ "”" "\"" '”' [] rfl (hmem _ h2 (by decide) (by decide))
  have e7 := pyReplace_id _ "“" "\"" '“' [] rfl (hmem _ h3 (by decide) (by decide))
  have e8 := pyReplace_id _ "；" ";" '；' [] rfl (hmem _ h4 (by decide) (by decide))
  have e9 := pyReplace_id _ "。" "." '。' [] rfl (hmem _ h5 (by decide) (by decide))
  have e10 := pyReplace_id _ "（" "(" '（' [] rfl (hmem _ h6 (by decide) (by decide))
  have e11 := pyReplace_id _ "）" ")" '）' [] rfl (hmem _ h7 (by decide) (by decide))
  have hfun : (fun c => if c == '，' then ',' else c) ∘ (fun c => if c == '：' then ':' else c) =
      fwHalf := by
    funext c
    by_cases hc : c = '：'
    · subst hc; rfl
    · by_cases hc2 : c = '，'
      · subst hc2; rfl
      · simp [Function.comp, fwHalf, hc, hc2]
  simp only [escapeRepair]
  rw [e1, e2, e3, e4, e5, e6, e7, e8, e9, e10, e11]
  rw [List.map_map, hfun]

/-- Witness for C8 at a mixed input. -/
theorem fullwidth_punct_replaced_witness : escapeRepair "a：b，c" = "a:b,c" :=
  (fullwidth_punct_replaced "a：b，c" (by decide) (by decide) (by decide) (by decide)
    (by decide) (by decide) (by decide)).trans (by decide)

/-- C7: on the input consisting of an object with a trailing comma, the
StructuralRepairer removes the comma, the repaired text decodes to the
mapping binding a to 1, and the pipeline's parse step succeeds (the pipeline
then fails only later, in validation, with all three required keys missing). -/
theorem trailing_comma_repaired :
    repairedOf "\x7b\"a\":1,\x7d" = "\x7b\"a\":1\x7d" ∧
      pyJsonLoads "\x7b\"a\":1\x7d" = .ok (.jobj [("a", .jnum 1)]) ∧
      process_json_string "\x7b\"a\":1,\x7d" = .error (.missingField requiredFields) :=
  ⟨rfl, rfl, rfl⟩

/-! ## Lemmas about the validator -/

theorem lookupKey_any (kvs : List (String × Jv)) (k : String) (v : Jv)
    (h : lookupKey kvs k = some v) : kvs.any (fun kv => kv.1 == k) = true := by
  induction kvs with
  | nil => simp [lookupKey] at h
  | cons kv rest ih =>
    obtain ⟨k0, v0⟩ := kv
    by_cases hk : (k0 == k) = true
    · simp [List.any_cons, hk]
    · rw [lookupKey, if_neg (by simp [hk])] at h
      simp [List.any_cons, ih h]

theorem any_lookupKey (kvs : List (String × Jv)) (k : String)
    (h : kvs.any (fun kv => kv.1 == k) = true) : ∃ v, lookupKey kvs k = some v := by
  induction kvs with
  | nil => simp at h
  | cons kv rest ih =>
    obtain ⟨k0, v0⟩ := kv
    by_cases hk : (k0 == k) = true
    · exact ⟨v0, by rw [lookupKey, if_pos hk]⟩
    · rw [List.any_cons] at h
      simp only [hk, Bool.false_or] at h
      obtain ⟨v, hv⟩ := ih h
      exact ⟨v, by rw [lookupKey, if_neg (by simp [hk]), hv]⟩

theorem isStrAt_lookup (kvs : List (String × Jv)) (k : String) (h : isStrAt kvs k = true) :
    ∃ t, lookupKey kvs k = some (.jstr t) := by
  unfold isStrAt at h
  cases heq : lookupKey kvs k with
  | none => rw [heq] at h; simp at h
  | some w =>
    rw [heq] at h
    cases w <;> simp at h
    case jstr t => exact ⟨t, rfl⟩

theorem collectAbsent_container (fs : List String) (v : Jv) (h : isContainer v = true) :
    collectAbsent fs v = .ok (fs.filter (fun f => !(memB f v))) := by
  induction fs with
  | nil => rfl
  | cons f fs ih =>
    rw [collectAbsent]
    rw [show pyInB f v = .ok (memB f v) from by rw [pyInB, if_pos h]]
    rw [show (Except.ok (memB f v) >>= fun b =>
        collectAbsent fs v >>= fun rest =>
          Except.ok (if b then rest else f :: rest) : Except ProcessError (List String)) =
        (collectAbsent fs v >>= fun rest =>
          Except.ok (if memB f v then rest else f :: rest)) from rfl]
    rw [ih]
    cases hm : memB f v <;> simp [List.filter_cons, hm, Bind.bind, Except.bind]

theorem collectAbsent_ok_nil (fs : List String) (v : Jv)
    (h : collectAbsent fs v = .ok []) : ∀ f ∈ fs, pyInB f v = .ok true := by
  induction fs with
  | nil => intro f hf; simp at hf
  | cons f0 fs ih =>
    intro f hf
    rw [collectAbsent] at h
    cases hb : pyInB f0 v with
    | error e => rw [hb] at h; simp [Bind.bind, Except.bind] at h
    | ok b =>
      rw [hb] at h
      cases hr : collectAbsent fs v with
      | error e => rw [hr] at h; simp [Bind.bind, Except.bind] at h
      | ok rest =>
        rw [hr] at h
        simp only [Bind.bind, Except.bind, Except.ok.injEq] at h
        cases hbb : b with
        | false => rw [hbb] at h; simp at h
        | true =>
          rw [hbb] at h
          simp only [if_true] at h
          subst h
          rcases List.mem_cons.1 hf with hf0 | hfs
          · subst hf0; rw [hb, hbb]
          · exact ih hr f hfs

theorem validate_ok_inversion (u v : Jv) (h : validateSchema u = .ok v) :
    v = u ∧ ∃ kvs, u = .jobj kvs ∧ memB "generation_prompt" u = true ∧
      memB "evaluation_rubic" u = true ∧ memB "manual" u = true ∧
      ∃ r, lookupKey kvs "evaluation_rubic" = some r ∧
        ∀ f ∈ rubicFields, pyInB f r = .ok true := by
  unfold validateSchema at h
  cases hc : collectAbsent requiredFields u with
  | error e => rw [hc] at h; simp [Bind.bind, Except.bind] at h
  | ok m =>
    rw [hc] at h
    simp only [Bind.bind, Except.bind] at h
    by_cases hm : m.isEmpty = true
    · rw [if_pos hm] at h
      cases hg : pyDictGet "evaluation_rubic" (.jobj []) u with
      | error e => rw [hg] at h; simp [Bind.bind, Except.bind] at h
      | ok r0 =>
        rw [hg] at h
        simp only [Bind.bind, Except.bind] at h
        cases hr : collectAbsent rubicFields r0 with
        | error e => rw [hr] at h; simp [Bind.bind, Except.bind] at h
        | ok m2 =>
          rw [hr] at h
          simp only [Bind.bind, Except.bind] at h
          by_cases hm2 : m2.isEmpty = true
          · rw [if_pos hm2] at h
            have hv : v = u := by
              simp only [Except.ok.injEq] at h
              exact h.symm
            obtain ⟨kvs, hkvs⟩ : ∃ kvs, u = .jobj kvs := by
              cases u <;> simp [pyDictGet] at hg
              case jobj kvs => exact ⟨kvs, rfl⟩
            subst hkvs
            have hmnil : m = [] := List.isEmpty_iff.mp hm
            have hall := collectAbsent_ok_nil requiredFields (.jobj kvs) (hmnil ▸ hc)
            have hmem : ∀ f ∈ requiredFields, memB f (.jobj kvs) = true := by
              intro f hf
              have hf2 := hall f hf
              simp only [pyInB, isContainer, if_true] at hf2
              simpa using hf2
            have her := hmem "evaluation_rubic" (by simp [requiredFields])
            obtain ⟨rv, hrv⟩ := any_lookupKey kvs "evaluation_rubic" (by simpa [memB] using her)
            have hr0 : r0 = rv := by
              simp only [pyDictGet, hrv, Option.getD_some, Except.ok.injEq] at hg
              exact hg.symm
            refine ⟨hv, kvs, rfl, hmem "generation_prompt" (by simp [requiredFields]), her,
              hmem "manual" (by simp [requiredFields]), rv, hrv, ?_⟩
            have hm2nil : m2 = [] := List.isEmpty_iff.mp hm2
            exact collectAbsent_ok_nil rubicFields rv (hr0 ▸ hm2nil ▸ hr)
          · rw [if_neg hm2] at h; simp at h
    · rw [if_neg hm] at h; simp at h

theorem validate_of_schemaOk (v : Jv) (h : rubricSchemaOk v = true) :
    validateSchema v = .ok v := by
  cases v with
  | jobj kvs =>
    simp only [rubricSchemaOk, Bool.and_eq_true] at h
    obtain ⟨⟨h1, h2⟩, h3⟩ := h
    cases heq : lookupKey kvs "evaluation_rubic" with
    | none => rw [heq] at h3; simp [rubricValueOk] at h3
    | some w =>
      rw [heq] at h3
      cases w <;> simp only [rubricValueOk] at h3 <;>
        first
          | exact absurd h3 Bool.false_ne_true
          | skip
      case jobj r =>
      have hall : ∀ f ∈ rubicFields, isStrAt r f = true := by
        simpa [List.all_eq_true] using h3
      obtain ⟨tg, hLg⟩ := isStrAt_lookup kvs "generation_prompt" h1
      have hag := lookupKey_any kvs "generation_prompt" _ hLg
      obtain ⟨tm, hLm⟩ := isStrAt_lookup kvs "manual" h2
      have ham := lookupKey_any kvs "manual" _ hLm
      have hae := lookupKey_any kvs "evaluation_rubic" _ heq
      have hfil : requiredFields.filter (fun f => !(memB f (.jobj kvs))) = [] := by
        simp [requiredFields, memB, hag, hae, ham]
      obtain ⟨t1, hL1⟩ := isStrAt_lookup r "pc_rubic" (hall _ (by simp [rubicFields]))
      obtain ⟨t2, hL2⟩ := isStrAt_lookup r "cmp_rubic" (hall _ (by simp [rubicFields]))
      obtain ⟨t3, hL3⟩ := isStrAt_lookup r "slr_rubic" (hall _ (by simp [rubicFields]))
      obtain ⟨t4, hL4⟩ := isStrAt_lookup r "clr_rubic" (hall _ (by simp [rubicFields]))
      obtain ⟨t5, hL5⟩ := isStrAt_lookup r "ri_rubic" (hall _ (by simp [rubicFields]))
      have ha1 := lookupKey_any r "pc_rubic" _ hL1
      have ha2 := lookupKey_any r "cmp_rubic" _ hL2
      have ha3 := lookupKey_any r "slr_rubic" _ hL3
      have ha4 := lookupKey_any r "clr_rubic" _ hL4
      have ha5 := lookupKey_any r "ri_rubic" _ hL5
      have hfil2 : rubicFields.filter (fun f => !(memB f (.jobj r))) = [] := by
        simp [rubicFields, memB, ha1, ha2, ha3, ha4, ha5]
      unfold validateSchema
      rw [collectAbsent_container requiredFields (.jobj kvs) rfl, hfil]
      simp only [Bind.bind, Except.bind, List.isEmpty_nil, if_true]
      simp only [pyDictGet, heq, Option.getD_some]
      rw [collectAbsent_container rubicFields (.jobj r) rfl, hfil2]
      simp
  | jnull => simp [rubricSchemaOk] at h
  | jbool b => simp [rubricSchemaOk] at h
  | jnum n => simp [rubricSchemaOk] at h
  | jfloat l => simp [rubricSchemaOk] at h
  | jstr t => simp [rubricSchemaOk] at h
  | jarr xs => simp [rubricSchemaOk] at h

/-- Unfolding equation for `process_json_string`, stated once so proofs can
rewrite with it. -/
theorem process_json_string_eq (s : String) :
    process_json_string s =
      if (normalizeText s).data.isEmpty then Except.error ProcessError.emptyInput
      else parseAndValidate (structuralRepair (escapeRepair (normalizeText s))) := rfl

theorem parseAndValidate_error (fs : String) (e : JErr) (h : pyJsonLoads fs = .error e) :
    parseAndValidate fs = .error (.jsonDecode (lineOf fs e.pos) (colOf fs e.pos) e.pos e.msg
      ⟨fs.data.take 500⟩) := by
  unfold parseAndValidate
  rw [h]

theorem parseAndValidate_ok (fs : String) (v : Jv) (h : pyJsonLoads fs = .ok v) :
    parseAndValidate fs = validateSchema v := by
  unfold parseAndValidate
  rw [h]

/-- C1 (amended): on input that is already valid JSON satisfying the required
schema and on which the normalization and repair passes are no-ops, the
pipeline returns exactly the standard-library decoding of the input.  (The
passes are not no-ops on all valid JSON; see the counterexample.) -/
theorem valid_fixed_input_roundtrip (s : String) (v : Jv)
    (h1 : normalizeText s = s) (h2 : escapeRepair s = s) (h3 : structuralRepair s = s)
    (hp : pyJsonLoads s = .ok v) (hs : rubricSchemaOk v = true) :
    process_json_string s = .ok v := by
  have hs0 : s ≠ "" := by
    intro he
    rw [he, show pyJsonLoads "" = .error ⟨"Expecting value", 0⟩ from rfl] at hp
    simp at hp
  have hne : s.data.isEmpty = false := by
    cases hE : s.data.isEmpty
    · rfl
    · exact absurd (congrArg String.mk (List.isEmpty_iff.mp hE)) hs0
  rw [process_json_string_eq, h1, if_neg (by simp [hne]), h2, h3,
    parseAndValidate_ok _ _ hp]
  exact validate_of_schemaOk v hs

set_option maxRecDepth 8192 in
/-- Counterexample to C1 as stated: a valid, schema-satisfying JSON input
whose text contains a doubly escaped newline inside a string literal.  The
escape repair rewrites it, so the pipeline succeeds but returns a value that
is not deep-equal to the standard decoding (a backslash-n two-character
string became a newline). -/
theorem valid_input_not_preserved_cex :
    pyJsonLoads "\x7b\"generation_prompt\":\"\\\\n\",\"evaluation_rubic\":\x7b\"pc_rubic\":\"a\",\"cmp_rubic\":\"a\",\"slr_rubic\":\"a\",\"clr_rubic\":\"a\",\"ri_rubic\":\"a\"\x7d,\"manual\":\"a\"\x7d" =
      .ok (.jobj [("generation_prompt", .jstr "\\n"),
        ("evaluation_rubic", .jobj [("pc_rubic", .jstr "a"), ("cmp_rubic", .jstr "a"),
          ("slr_rubic", .jstr "a"), ("clr_rubic", .jstr "a"), ("ri_rubic", .jstr "a")]),
        ("manual", .jstr "a")]) ∧
    rubricSchemaOk (.jobj [("generation_prompt", .jstr "\\n"),
        ("evaluation_rubic", .jobj [("pc_rubic", .jstr "a"), ("cmp_rubic", .jstr "a"),
          ("slr_rubic", .jstr "a"), ("clr_rubic", .jstr "a"), ("ri_rubic", .jstr "a")]),
        ("manual", .jstr "a")]) = true ∧
    process_json_string "\x7b\"generation_prompt\":\"\\\\n\",\"evaluation_rubic\":\x7b\"pc_rubic\":\"a\",\"cmp_rubic\":\"a\",\"slr_rubic\":\"a\",\"clr_rubic\":\"a\",\"ri_rubic\":\"a\"\x7d,\"manual\":\"a\"\x7d" =
      .ok (.jobj [("generation_prompt", .jstr "\n"),
        ("evaluation_rubic", .jobj [("pc_rubic", .jstr "a"), ("cmp_rubic", .jstr "a"),
          ("slr_rubic", .jstr "a"), ("clr_rubic", .jstr "a"), ("ri_rubic", .jstr "a")]),
        ("manual", .jstr "a")]) ∧
    (Jv.jobj [("generation_prompt", .jstr "\n"),
        ("evaluation_rubic", .jobj [("pc_rubic", .jstr "a"), ("cmp_rubic", .jstr "a"),
          ("slr_rubic", .jstr "a"), ("clr_rubic", .jstr "a"), ("ri_rubic", .jstr "a")]),
        ("manual", .jstr "a")]) ≠
      (Jv.jobj [("generation_prompt", .jstr "\\n"),
        ("evaluation_rubic", .jobj [("pc_rubic", .jstr "a"), ("cmp_rubic", .jstr "a"),
          ("slr_rubic", .jstr "a"), ("clr_rubic", .jstr "a"), ("ri_rubic", .jstr "a")]),
        ("manual", .jstr "a")]) := by
  refine ⟨rfl, rfl, rfl, ?_⟩
  intro h
  simp only [Jv.jobj.injEq, List.cons.injEq, Prod.mk.injEq, Jv.jstr.injEq] at h
  exact absurd h.1.2 (by decide)

set_option maxRecDepth 8192 in
/-- Witness for C1 at a compact valid input satisfying the schema, on which
every pass is the identity. -/
theorem valid_fixed_input_roundtrip_witness :
    process_json_string "\x7b\"generation_prompt\":\"a\",\"evaluation_rubic\":\x7b\"pc_rubic\":\"a\",\"cmp_rubic\":\"a\",\"slr_rubic\":\"a\",\"clr_rubic\":\"a\",\"ri_rubic\":\"a\"\x7d,\"manual\":\"a\"\x7d" =
      .ok (.jobj [("generation_prompt", .jstr "a"),
        ("evaluation_rubic", .jobj [("pc_rubic", .jstr "a"), ("cmp_rubic", .jstr "a"),
          ("slr_rubic", .jstr "a"), ("clr_rubic", .jstr "a"), ("ri_rubic", .jstr "a")]),
        ("manual", .jstr "a")]) :=
  valid_fixed_input_roundtrip _ _ rfl rfl rfl rfl rfl

/-- C2 (amended): whatever `process_json_string` returns successfully is a
mapping that contains the three required top-level keys, and the value bound
to `evaluation_rubic` contains the five rubric keys in the Python membership
sense (keys of a mapping, string elements of a list, or substrings of a
string).  No value is guaranteed to be a string or a mapping: the validator
checks membership only, never types (see the counterexample). -/
theorem process_ok_shape (s : String) (v : Jv) (h : process_json_string s = .ok v) :
    ∃ kvs, v = .jobj kvs ∧ memB "generation_prompt" v = true ∧
      memB "evaluation_rubic" v = true ∧ memB "manual" v = true ∧
      ∃ r, lookupKey kvs "evaluation_rubic" = some r ∧
        ∀ f ∈ rubicFields, pyInB f r = .ok true := by
  rw [process_json_string_eq] at h
  by_cases hE : (normalizeText s).data.isEmpty = true
  · rw [if_pos hE] at h; simp at h
  · rw [if_neg hE] at h
    cases hp : pyJsonLoads (structuralRepair (escapeRepair (normalizeText s))) with
    | error e => rw [parseAndValidate_error _ _ hp] at h; simp at h
    | ok jd =>
      rw [parseAndValidate_ok _ _ hp] at h
      obtain ⟨hv, kvs, hjd, hgp, her, hman, r, hlr, hrf⟩ := validate_ok_inversion jd v h
      subst hv
      exact ⟨kvs, hjd, hgp, her, hman, r, hlr, hrf⟩

set_option maxRecDepth 8192 in
/-- Counterexample to C2 as stated: an input whose required keys are all
bound to numbers is returned successfully, with `generation_prompt` not bound
to a string. -/
theorem process_ok_untyped_cex :
    process_json_string "\x7b\"generation_prompt\":1,\"evaluation_rubic\":\x7b\"pc_rubic\":1,\"cmp_rubic\":1,\"slr_rubic\":1,\"clr_rubic\":1,\"ri_rubic\":1\x7d,\"manual\":1\x7d" =
      .ok (.jobj [("generation_prompt", .jnum 1),
        ("evaluation_rubic", .jobj [("pc_rubic", .jnum 1), ("cmp_rubic", .jnum 1),
          ("slr_rubic", .jnum 1), ("clr_rubic", .jnum 1), ("ri_rubic", .jnum 1)]),
        ("manual", .jnum 1)]) ∧
    isStrAt [("generation_prompt", Jv.jnum 1),
        ("evaluation_rubic", Jv.jobj [("pc_rubic", Jv.jnum 1), ("cmp_rubic", Jv.jnum 1),
          ("slr_rubic", Jv.jnum 1), ("clr_rubic", Jv.jnum 1), ("ri_rubic", Jv.jnum 1)]),
        ("manual", Jv.jnum 1)] "generation_prompt" = false :=
  ⟨rfl, rfl⟩

set_option maxRecDepth 8192 in
/-- Witness for C2 at a successful concrete run (an extra key passes through
unvalidated). -/
theorem process_ok_shape_witness :
    ∃ kvs, (Jv.jobj [("generation_prompt", Jv.jstr "a"),
        ("evaluation_rubic", Jv.jobj [("pc_rubic", Jv.jstr "a"), ("cmp_rubic", Jv.jstr "a"),
          ("slr_rubic", Jv.jstr "a"), ("clr_rubic", Jv.jstr "a"), ("ri_rubic", Jv.jstr "a")]),
        ("manual", Jv.jstr "a"), ("extra", Jv.jbool true)]) = .jobj kvs ∧
      memB "generation_prompt" (Jv.jobj [("generation_prompt", Jv.jstr "a"),
        ("evaluation_rubic", Jv.jobj [("pc_rubic", Jv.jstr "a"), ("cmp_rubic", Jv.jstr "a"),
          ("slr_rubic", Jv.jstr "a"), ("clr_rubic", Jv.jstr "a"), ("ri_rubic", Jv.jstr "a")]),
        ("manual", Jv.jstr "a"), ("extra", Jv.jbool true)]) = true ∧
      memB "evaluation_rubic" (Jv.jobj [("generation_prompt", Jv.jstr "a"),
        ("evaluation_rubic", Jv.jobj [("pc_rubic", Jv.jstr "a"), ("cmp_rubic", Jv.jstr "a"),
          ("slr_rubic", Jv.jstr "a"), ("clr_rubic", Jv.jstr "a"), ("ri_rubic", Jv.jstr "a")]),
        ("manual", Jv.jstr "a"), ("extra", Jv.jbool true)]) = true ∧
      memB "manual" (Jv.jobj [("generation_prompt", Jv.jstr "a"),
        ("evaluation_rubic", Jv.jobj [("pc_rubic", Jv.jstr "a"), ("cmp_rubic", Jv.jstr "a"),
          ("slr_rubic", Jv.jstr "a"), ("clr_rubic", Jv.jstr "a"), ("ri_rubic", Jv.jstr "a")]),
        ("manual", Jv.jstr "a"), ("extra", Jv.jbool true)]) = true ∧
      ∃ r, lookupKey kvs "evaluation_rubic" = some r ∧
        ∀ f ∈ rubicFields, pyInB f r = .ok true :=
  process_ok_shape
    "\x7b\"generation_prompt\":\"a\",\"evaluation_rubic\":\x7b\"pc_rubic\":\"a\",\"cmp_rubic\":\"a\",\"slr_rubic\":\"a\",\"clr_rubic\":\"a\",\"ri_rubic\":\"a\"\x7d,\"manual\":\"a\",\"extra\":true\x7d"
    _ rfl

/-- C3 (amended): for a decoded mapping reaching schema validation, if any of
the three required top-level keys is absent the validator fails with
`MissingFieldError` listing exactly all absent top-level keys in source order
(sub-keys are not examined); if all three are present and the value bound to
`evaluation_rubic` supports membership (mapping, list or string) but rubric
sub-keys are absent, it fails with `MissingRubricFieldError` listing exactly
all absent sub-keys.  Each level collects all its absent keys before failing.
(On a non-container rubric value the sub-key check raises `TypeError`
instead; see the counterexample and C10.) -/
theorem validator_collects_missing (kvs : List (String × Jv)) :
    (requiredFields.filter (fun f => !(memB f (Jv.jobj kvs))) ≠ [] →
      validateSchema (.jobj kvs) =
        .error (.missingField (requiredFields.filter (fun f => !(memB f (Jv.jobj kvs)))))) ∧
    (requiredFields.filter (fun f => !(memB f (Jv.jobj kvs))) = [] →
      ∀ r, lookupKey kvs "evaluation_rubic" = some r → isContainer r = true →
        rubicFields.filter (fun f => !(memB f r)) ≠ [] →
        validateSchema (.jobj kvs) =
          .error (.missingRubic (rubicFields.filter (fun f => !(memB f r))))) := by
  constructor
  · intro hne
    unfold validateSchema
    rw [collectAbsent_container requiredFields (.jobj kvs) rfl]
    simp only [Bind.bind, Except.bind]
    rw [if_neg (fun hEq => hne (List.isEmpty_iff.mp hEq))]
  · intro hnil r hlr hcont hne
    unfold validateSchema
    rw [collectAbsent_container requiredFields (.jobj kvs) rfl, hnil]
    simp only [Bind.bind, Except.bind, List.isEmpty_nil, if_true, pyDictGet, hlr,
      Option.getD_some]
    rw [collectAbsent_container rubicFields r hcont]
    simp only [Bind.bind, Except.bind]
    rw [if_neg (fun hEq => hne (List.isEmpty_iff.mp hEq))]

/-- Counterexample to C3 as stated: with all three top-level keys present but
`evaluation_rubic` bound to a number, every rubric sub-key is absent yet the
validator raises `TypeError`, not `MissingRubricFieldError`. -/
theorem validator_typeerror_cex :
    validateSchema (.jobj [("generation_prompt", .jstr "a"), ("evaluation_rubic", .jnum 1),
      ("manual", .jstr "b")]) = .error (.typeError "int") ∧
    ProcessError.typeError "int" ≠ ProcessError.missingRubic rubicFields :=
  ⟨rfl, by decide⟩

/-- Witness for C3: one missing top-level key is reported alone, and one
missing rubric sub-key is reported alone. -/
theorem validator_collects_missing_witness :
    validateSchema (.jobj [("generation_prompt", .jstr "x"), ("evaluation_rubic", .jobj [])]) =
      .error (.missingField ["manual"]) ∧
    validateSchema (.jobj [("generation_prompt", .jstr "x"),
      ("evaluation_rubic", .jobj [("pc_rubic", .jstr "a"), ("cmp_rubic", .jstr "a"),
        ("slr_rubic", .jstr "a"), ("clr_rubic", .jstr "a")]), ("manual", .jstr "y")]) =
      .error (.missingRubic ["ri_rubic"]) :=
  ⟨(validator_collects_missing _).1 (by decide),
   (validator_collects_missing _).2 (by decide)
     (Jv.jobj [("pc_rubic", Jv.jstr "a"), ("cmp_rubic", Jv.jstr "a"),
       ("slr_rubic", Jv.jstr "a"), ("clr_rubic", Jv.jstr "a")]) rfl rfl (by decide)⟩

/-- C10: on an input whose repaired text parses to a mapping with all three
required keys but `evaluation_rubic` bound to a number, the sub-key
membership test raises `TypeError` rather than `MissingRubricFieldError`: the
validator's error branch is not total over parsed values. -/
theorem rubric_membership_typeerror :
    pyJsonLoads (repairedOf "\x7b\"generation_prompt\":\"a\",\"evaluation_rubic\":1,\"manual\":\"b\"\x7d") =
      .ok (.jobj [("generation_prompt", .jstr "a"), ("evaluation_rubic", .jnum 1),
        ("manual", .jstr "b")]) ∧
    process_json_string "\x7b\"generation_prompt\":\"a\",\"evaluation_rubic\":1,\"manual\":\"b\"\x7d" =
      .error (.typeError "int") ∧
    ProcessError.typeError "int" ≠ ProcessError.missingRubic rubicFields :=
  ⟨rfl, rfl, by decide⟩
